import Mathlib

/-!
Shallow embedding of the Doom-Mod-Records Flask application (src/app.py).

The web application stores Users, Mods, Records and Comments in a relational
store and exposes route handlers that mutate it.  Each handler is embedded as
a pure Lean function from its request parameters and the current database
state to the new state plus a response value.  Python values that the source
accidentally turns into one-element tuples (trailing commas on assignment
lines) are modelled by the `PyVal` type, which distinguishes a plain string
from a 1-tuple containing a string.  Handlers that can raise an uncaught
Python exception are embedded as `Except String`-valued functions.
-/

/-- A Python value stored in a string-ish column: either a plain string or a
one-element tuple `(s,)` produced by a trailing comma on an assignment. -/
inductive PyVal where
  | str (s : String)
  | tuple1 (s : String)
deriving DecidableEq, Repr

/-- A row of the Users table (models.Users). -/
structure Users where
  id : Nat
  username : String
  email : PyVal
  password : String
  image_url : String
deriving DecidableEq, Repr

/-- A row of the Mods table (models.Mods). -/
structure Mods where
  id : Nat
  file_id : Nat
  title : String
  url : String
  description : String
  date_uploaded : String
  author : String
  category : String
  rating : Int
  rating_count : Int
deriving DecidableEq, Repr

/-- A row of the Records table (models.Records): one user tracking one mod. -/
structure Records where
  id : Nat
  user_id : Nat
  mod_id : Nat
  user_notes : PyVal
  user_review : String
  now_playing : Bool
  play_status : String
deriving DecidableEq, Repr

/-- The relational store.  The `next_*_id` fields model the autoincrement
primary-key sequences of the database. -/
structure DB where
  users : List Users
  mods : List Mods
  records : List Records
  next_user_id : Nat
  next_mod_id : Nat
  next_record_id : Nat
deriving DecidableEq, Repr

/-- A rendered HTTP response of a page route: a redirect (with the flash
messages accumulated during the request) or a rendered template, or the 404
page produced by `get_or_404`. -/
inductive Response where
  | redirect (location : String) (flashes : List String)
  | render (template : String) (flashes : List String)
  | notFound
deriving DecidableEq, Repr

/-! ## Session management (check_cookies, global_user, do_login, do_logout)

`check_cookies` is registered with `before_first_request`: it runs only on
the first request served by the process.  `global_user` is registered with
`before_request`: it runs on every request.  The server-side session binding
`session[CURR_USER_KEY]` is modelled as an `Option Nat` (a user id). -/

/-- `do_login(user)`: bind the session to the user's id (app.py line 46). -/
def do_login (user : Users) : Option Nat := some user.id

/-- `do_logout()`: clear the session binding if present (app.py line 51). -/
def do_logout : Option Nat := none

/-- `check_cookies` (app.py lines 28-35, decorated `before_first_request`):
if the request carries a `user` cookie naming an existing user, log that user
in; if the cookie is absent, log out.  A cookie naming a nonexistent user
leaves the session untouched. -/
def check_cookies (db : DB) (sess : Option Nat) (cookieUser : Option String) :
    Option Nat :=
  match cookieUser with
  | some uname =>
    match db.users.find? (fun u => u.username == uname) with
    | some user => do_login user
    | none => sess
  | none => do_logout

/-- `global_user` (app.py lines 37-43, decorated `before_request`): resolve
`g.user` from the server-side session binding; anonymous when absent. -/
def global_user (db : DB) (sess : Option Nat) : Option Users :=
  match sess with
  | some uid => db.users.find? (fun u => u.id == uid)
  | none => none

/-- One inbound request's identity resolution: `check_cookies` runs only when
this is the first request served by the process, then `global_user` runs.
Returns the updated session binding and the resolved `g.user`. -/
def process_request (db : DB) (firstRequest : Bool) (sess : Option Nat)
    (cookieUser : Option String) : Option Nat × Option Users :=
  let sess1 := if firstRequest then check_cookies db sess cookieUser else sess
  (sess1, global_user db sess1)

/-! ## Registration (register, app.py lines 79-110) -/

/-- The registration form (forms.RegistrationForm).  `validates` models
`form.validate_on_submit()`. -/
structure RegistrationForm where
  username : String
  email : String
  password : String
  image_url : String
  validates : Bool
deriving DecidableEq, Repr

/-- Modelled from the spec: the default avatar placeholder
(`Users.image_url.default.arg`, defined in models.py which is not under
src/); the spec says the avatar "defaults to a fixed placeholder if absent". -/
def default_image_url : String := "/static/images/default-pic.png"

/-- Modelled from the spec: `Users.signup` (models.py, not under src/)
"stores only a one-way hash of the password".  The hash is modelled as an
injective tagging function; only that it differs from the raw password
matters to the claims. -/
def hashPassword (raw : String) : String := "hashed:" ++ raw

/-- Response of the `/register` route. -/
inductive RegisterResp where
  /-- A `user` cookie was already present: redirect to `/search`. -/
  | redirectSearch
  /-- Signup succeeded: 302 to `/search` setting the `user` and `password`
  cookies to these values. -/
  | registered (userCookie : String) (passwordCookie : String)
  /-- `IntegrityError` on commit: flash "Username already taken" and render
  the registration template again. -/
  | usernameTaken
  /-- Form did not validate (or GET): render the registration template. -/
  | renderForm
deriving DecidableEq, Repr

/-- `register` (app.py lines 79-110).  The duplicate-username
`IntegrityError` raised at commit is modelled from the spec's unique-username
constraint (models.py is not under src/): the commit fails and persists no
row when the username is already taken. -/
def register (cookieUser : Option String) (form : RegistrationForm)
    (db : DB) : DB × RegisterResp :=
  match cookieUser with
  | some _ => (db, RegisterResp.redirectSearch)
  | none =>
    if form.validates then
      if db.users.any (fun u => u.username == form.username) then
        (db, RegisterResp.usernameTaken)
      else
        let new_user : Users :=
          { id := db.next_user_id
            username := form.username
            email := PyVal.str form.email
            password := hashPassword form.password
            image_url :=
              if form.image_url == "" then default_image_url
              else form.image_url }
        ({ db with users := db.users ++ [new_user],
                   next_user_id := db.next_user_id + 1 },
         RegisterResp.registered new_user.username new_user.password)
    else (db, RegisterResp.renderForm)

/-! ## Mods (add_mod, delete_mod, create_mod; app.py lines 167-246) -/

/-- The JSON object of one search result passed to `create_mod`.  `Option`
fields model key presence (`'rating' in m_json`). -/
structure ModJson where
  id : Nat
  dir : String
  title : String
  url : String
  description : String
  date : String
  author : String
  rating : Option Int
  votes : Option Int
deriving DecidableEq, Repr

/-- Python's `s.partition(sep)` restricted to a single-character separator:
splits at the first occurrence of `sep`, returning the text before it and
the rest (separator included); when `sep` does not occur, the first
component is the whole string. -/
def partitionAt (sep : Char) : List Char → List Char × List Char
  | [] => ([], [])
  | c :: cs =>
    if c == sep then ([], c :: cs)
    else
      let p := partitionAt sep cs
      (c :: p.1, p.2)

/-- `create_mod` (app.py lines 226-246): builds a Mods row from search-result
JSON.  `category` is `m_json['dir'].partition('/')[0]`; `rating` and
`rating_count` default to 0 when the `rating`/`votes` keys are absent.  The
primary key is assigned by the autoincrement sequence at commit, passed here
as `newId`. -/
def create_mod (m_json : ModJson) (newId : Nat) : Mods :=
  { id := newId
    file_id := m_json.id
    title := m_json.title
    url := m_json.url
    description := m_json.description
    date_uploaded := m_json.date
    author := m_json.author
    category := String.mk (partitionAt '/' m_json.dir.data).1
    rating := m_json.rating.getD 0
    rating_count := m_json.votes.getD 0 }

/-- JSON response of `/api/add_mod`. -/
inductive AddModResp where
  /-- status "Unauthorized access." -/
  | unauthorized
  /-- status "Already pulled." with the existing mod's id. -/
  | alreadyPulled (mod_id : Nat)
  /-- status "Pulled!" with the new mod's id. -/
  | pulled (mod_id : Nat)
deriving DecidableEq, Repr

/-- `add_mod` (app.py lines 167-191): requires `g.user`; if a Mod with the
payload's `id` as `file_id` already exists, return "Already pulled." with the
existing row's id and change nothing; otherwise create and commit a new Mod. -/
def add_mod (gUser : Option Users) (mod_data : ModJson) (db : DB) :
    DB × AddModResp :=
  match gUser with
  | none => (db, AddModResp.unauthorized)
  | some _ =>
    match db.mods.find? (fun m => m.file_id == mod_data.id) with
    | some mod_check => (db, AddModResp.alreadyPulled mod_check.id)
    | none =>
      let mod := create_mod mod_data db.next_mod_id
      ({ db with mods := db.mods ++ [mod],
                 next_mod_id := db.next_mod_id + 1 },
       AddModResp.pulled mod.id)

/-- `delete_mod` (app.py lines 217-224): when `g.user` is set, delete the Mod
row and flash a success message; otherwise fall through silently.  Either way
redirect to `/mods`. -/
def delete_mod (mod_id : Nat) (gUser : Option Users) (db : DB) :
    DB × Response :=
  match gUser with
  | some _ =>
    ({ db with mods := db.mods.filter (fun m => !(m.id == mod_id)) },
     Response.redirect "/mods" ["Mod successfully removed."])
  | none => (db, Response.redirect "/mods" [])

/-! ## Records (add_record, edit_record, delete_record; app.py lines 265-319) -/

/-- JSON response of `/api/add_record/<mod_id>`.  In the conflict branch the
source returns `record.id` of the rolled-back pending row; after
`db.session.rollback()` that attribute is Python `None` (the INSERT failed,
so no key was ever assigned), hence `Option Nat`. -/
inductive AddRecordResp where
  /-- status "Added!" with the new record's id. -/
  | added (record_id : Nat)
  /-- status "Already exists." with `record.id` of the rolled-back row. -/
  | alreadyExists (record_id : Option Nat)
  /-- status "Not logged in." -/
  | notLoggedIn
deriving DecidableEq, Repr

/-- `add_record` (app.py lines 265-286).  The `(user_id, mod_id)` uniqueness
constraint that raises `IntegrityError` at commit is modelled from the spec
(models.py is not under src/): inserting a duplicate pair fails and is rolled
back with no side effects.  New rows get empty notes/review and default
flags, also modelled from the spec (column defaults live in models.py). -/
def add_record (mod_id : Nat) (gUser : Option Users) (db : DB) :
    DB × AddRecordResp :=
  match gUser with
  | some u =>
    if db.records.any (fun r => r.user_id == u.id && r.mod_id == mod_id) then
      (db, AddRecordResp.alreadyExists none)
    else
      let record : Records :=
        { id := db.next_record_id
          user_id := u.id
          mod_id := mod_id
          user_notes := PyVal.str ""
          user_review := ""
          now_playing := false
          play_status := "" }
      ({ db with records := db.records ++ [record],
                 next_record_id := db.next_record_id + 1 },
       AddRecordResp.added record.id)
  | none => (db, AddRecordResp.notLoggedIn)

/-- The record-edit form (forms.RecordForm).  `validates` models
`form.validate_on_submit()`. -/
structure RecordForm where
  user_notes : String
  user_review : String
  now_playing : Bool
  play_status : String
  validates : Bool
deriving DecidableEq, Repr

/-- Commit an updated Records row: replace the row with the same primary key. -/
def commitRecord (db : DB) (r : Records) : DB :=
  { db with records := db.records.map (fun x => if x.id == r.id then r else x) }

/-- `edit_record` (app.py lines 288-307): requires `g.user` (else flash
Unauthorized and redirect); 404 when the record does not exist; on a valid
submission overwrite the four fields and commit.  Source line 298 reads
`record.user_notes = form.user_notes.data,` — the trailing comma makes the
assigned value the 1-tuple `(data,)`, embedded as `PyVal.tuple1`; the other
three assignments have no trailing comma. -/
def edit_record (record_id : Nat) (gUser : Option Users) (form : RecordForm)
    (db : DB) : DB × Response :=
  match gUser with
  | none =>
    (db, Response.redirect ("/records/" ++ toString record_id)
          ["Unauthorized access."])
  | some _ =>
    match db.records.find? (fun r => r.id == record_id) with
    | none => (db, Response.notFound)
    | some record =>
      if form.validates then
        let record1 : Records :=
          { record with
            user_notes := PyVal.tuple1 form.user_notes
            user_review := form.user_review
            now_playing := form.now_playing
            play_status := form.play_status }
        (commitRecord db record1,
         Response.redirect ("/records/" ++ toString record_id) [])
      else (db, Response.render "record_edit.html" [])

/-- `delete_record` (app.py lines 309-319): line 312 evaluates
`Records.query.filter_by(id=record_id).first().mod_id` before any
authentication check; when no such record exists, `first()` is Python `None`
and the attribute access raises `AttributeError` — embedded as the `error`
branch.  Otherwise: delete the row when `g.user` is set (else flash
Unauthorized), then redirect to the resolved mod's page either way. -/
def delete_record (record_id : Nat) (gUser : Option Users) (db : DB) :
    Except String (DB × Response) :=
  match db.records.find? (fun r => r.id == record_id) with
  | none => Except.error "AttributeError: NoneType has no attribute mod_id"
  | some r =>
    let mod_id := r.mod_id
    match gUser with
    | some _ =>
      Except.ok
        ({ db with records := db.records.filter (fun x => !(x.id == record_id)) },
         Response.redirect ("/mods/" ++ toString mod_id)
           ["Record successfully deleted."])
    | none =>
      Except.ok (db, Response.redirect ("/mods/" ++ toString mod_id)
        ["Unauthorized access."])

/-! ## Users (edit_user; app.py lines 337-359) -/

/-- The user-edit form (forms.UserEditForm).  `validates` models
`form.validate_on_submit()`; an empty `image_url` models a falsy
`form.image_url.data`. -/
structure UserEditForm where
  email : String
  image_url : String
  validates : Bool
deriving DecidableEq, Repr

/-- Commit an updated Users row: replace the row with the same primary key. -/
def commitUser (db : DB) (u : Users) : DB :=
  { db with users := db.users.map (fun x => if x.id == u.id then u else x) }

/-- `edit_user` (app.py lines 337-359).  Anonymous callers are redirected
away (lines 340-342).  For an authenticated caller whose id differs from
`user_id`, line 346 computes `redirect(...)` but DISCARDS it (no `return`),
so only the Unauthorized flash survives and execution falls through to the
edit.  Line 352 has a trailing comma (`user.email = form.email.data,`), so
email becomes a 1-tuple; line 353 reads `Users.image_url.default.args` —
`ColumnDefault` has `.arg`, not `.args`, so a falsy submitted image URL
raises `AttributeError`, embedded as the `error` branch. -/
def edit_user (user_id : Nat) (gUser : Option Users) (form : UserEditForm)
    (db : DB) : Except String (DB × Response) :=
  match gUser with
  | none =>
    Except.ok (db, Response.redirect ("/users/" ++ toString user_id)
      ["Unauthorized access."])
  | some gu =>
    let flashes := if gu.id != user_id then ["Unauthorized access."] else []
    match db.users.find? (fun u => u.id == user_id) with
    | none => Except.ok (db, Response.notFound)
    | some user =>
      if form.validates then
        if form.image_url == "" then
          Except.error "AttributeError: ColumnDefault has no attribute args"
        else
          let user1 : Users :=
            { user with email := PyVal.tuple1 form.email,
                        image_url := form.image_url }
          Except.ok (commitUser db user1,
            Response.redirect ("/users/" ++ toString user_id) flashes)
      else Except.ok (db, Response.render "user_edit.html" flashes)

/-! ## Concrete fixtures used by counterexamples and witnesses -/

/-- A stored user with id 1. -/
def alice : Users :=
  { id := 1, username := "alice", email := PyVal.str "a@x",
    password := "hashed:pw", image_url := "pic1" }

/-- A stored user with id 2, distinct from `alice`. -/
def bob : Users :=
  { id := 2, username := "bob", email := PyVal.str "b@x",
    password := "hashed:pw2", image_url := "pic2" }

/-- A stored mod with id 5 and archive file identifier 42. -/
def mod5 : Mods :=
  { id := 5, file_id := 42, title := "X", url := "u", description := "d",
    date_uploaded := "2020", author := "a", category := "levels",
    rating := 0, rating_count := 0 }

/-- A stored record with id 10: `alice` tracking `mod5`. -/
def rec10 : Records :=
  { id := 10, user_id := 1, mod_id := 5, user_notes := PyVal.str "old notes",
    user_review := "old", now_playing := false, play_status := "old" }

/-- A concrete database state holding the fixtures above. -/
def exDB : DB :=
  { users := [alice, bob], mods := [mod5], records := [rec10],
    next_user_id := 3, next_mod_id := 6, next_record_id := 11 }

/-- The spec's end-to-end example payload: mod 42 in directory
"levels/doom2", with no rating/votes keys. -/
def jEx : ModJson :=
  { id := 42, dir := "levels/doom2", title := "X", url := "u",
    description := "d", date := "2020", author := "a",
    rating := none, votes := none }

/-- Alice's row as left behind by the non-owner edit of C1's failing
input: email replaced by the 1-tuple of the submitted string. -/
def aliceEdited : Users :=
  { alice with email := PyVal.tuple1 "evil@x", image_url := "newpic" }

/-- Record 10 as left behind by C6's failing input: notes stored as the
1-tuple of the submitted string, the other fields as submitted. -/
def rec10Edited : Records :=
  { rec10 with user_notes := PyVal.tuple1 "n", user_review := "great",
               now_playing := true, play_status := "done" }

/-! ## Helper lemmas about list queries -/

/-- When a filter returns exactly one row, `find?` returns that row. -/
theorem find_of_filter_singleton {α : Type} (p : α → Bool) (l : List α)
    (m : α) (h : l.filter p = [m]) : l.find? p = some m := by
  induction l with
  | nil => simp at h
  | cons a t ih =>
    cases hpa : p a with
    | true =>
      rw [List.filter_cons_of_pos hpa] at h
      rw [List.find?_cons_of_pos t hpa]
      exact congrArg some (List.cons_eq_cons.mp h).1
    | false =>
      rw [List.filter_cons_of_neg (by simp [hpa])] at h
      rw [List.find?_cons_of_neg t (by simp [hpa])]
      exact ih h

/-- When a filter returns exactly one row, `any` holds. -/
theorem any_of_filter_singleton {α : Type} (p : α → Bool) (l : List α)
    (m : α) (h : l.filter p = [m]) : l.any p = true := by
  have hm : m ∈ l.filter p := by rw [h]; exact List.mem_singleton_self m
  rw [List.mem_filter] at hm
  exact List.any_eq_true.mpr ⟨m, hm.1, hm.2⟩

/-- A list none of whose elements satisfies `p` filters to the empty list. -/
theorem filter_eq_nil_of_any_eq_false {α : Type} (p : α → Bool) (l : List α)
    (h : l.any p = false) : l.filter p = [] := by
  rw [List.filter_eq_nil_iff]
  intro a ha
  have h2 := List.any_eq_false.mp h
  exact h2 a ha

/-- The first component of `partitionAt` is the longest separator-free
prefix. -/
theorem partitionAt_fst (sep : Char) (l : List Char) :
    (partitionAt sep l).1 = l.takeWhile (fun c => c != sep) := by
  induction l with
  | nil => rfl
  | cons c cs ih =>
    by_cases hc : c == sep
    · have hceq : c = sep := eq_of_beq hc
      simp [partitionAt, hc, List.takeWhile_cons, hceq]
    · have hcne : ¬ c = sep := by simpa using hc
      simp [partitionAt, hc, List.takeWhile_cons, ih, hcne]

/-- C8: for every imported search-result JSON object, the created Mod's
category equals the text of the object's `dir` field preceding the first
path separator, and when the `rating` or `votes` keys are absent the
created Mod's rating and rating count are 0. -/
theorem c8_create_mod_category_and_defaults (j : ModJson) (n : Nat) :
    (create_mod j n).category =
      String.mk (j.dir.data.takeWhile (fun c => c != '/')) ∧
    (j.rating = none → (create_mod j n).rating = 0) ∧
    (j.votes = none → (create_mod j n).rating_count = 0) := by
  refine ⟨?_, ?_, ?_⟩
  · show String.mk (partitionAt '/' j.dir.data).1 = _
    rw [partitionAt_fst]
  · intro h
    show j.rating.getD 0 = 0
    rw [h]; rfl
  · intro h
    show j.votes.getD 0 = 0
    rw [h]; rfl

/-- Witness for C8: importing the spec's example payload yields category
"levels" and rating/rating count 0. -/
theorem c8_create_mod_category_and_defaults_witness :
    jEx.rating = none ∧ jEx.votes = none ∧
    (create_mod jEx 1).category = "levels" ∧
    (create_mod jEx 1).rating = 0 ∧
    (create_mod jEx 1).rating_count = 0 := by
  obtain ⟨h1, h2, h3⟩ := c8_create_mod_category_and_defaults jEx 1
  refine ⟨rfl, rfl, ?_, h2 rfl, h3 rfl⟩
  rw [h1]
  rfl

/-- C9: for every existing Record, an authenticated delete first resolves
the Mod id the Record pointed to and redirects to that Mod's page, while the
Record row itself is removed from the store. -/
theorem c9_delete_record_redirects_to_mod (record_id : Nat) (gu : Users)
    (db : DB) (r : Records)
    (h : db.records.find? (fun x => x.id == record_id) = some r) :
    delete_record record_id (some gu) db =
      Except.ok
        ({ db with
            records := db.records.filter (fun x => !(x.id == record_id)) },
         Response.redirect ("/mods/" ++ toString r.mod_id)
           ["Record successfully deleted."]) ∧
    ∀ x ∈ db.records.filter (fun x => !(x.id == record_id)),
      x.id ≠ record_id := by
  constructor
  · unfold delete_record
    rw [h]
  · intro x hx
    rw [List.mem_filter] at hx
    simpa using hx.2

/-- Witness for C9: deleting the stored record 10 as alice redirects to
the page of mod 5, the mod it pointed to, and record 10 is gone. -/
theorem c9_delete_record_redirects_to_mod_witness :
    exDB.records.find? (fun x => x.id == 10) = some rec10 ∧
    delete_record 10 (some alice) exDB =
      Except.ok
        ({ exDB with
            records := exDB.records.filter (fun x => !(x.id == 10)) },
         Response.redirect ("/mods/" ++ toString rec10.mod_id)
           ["Record successfully deleted."]) := by
  have h : exDB.records.find? (fun x => x.id == 10) = some rec10 := by decide
  exact ⟨h, (c9_delete_record_redirects_to_mod 10 alice exDB rec10 h).1⟩

/-- C10: for every record id with no stored Record, `delete_record`
dereferences the absent lookup result before any authentication check, so
it faults (the error branch of the total embedding) for every caller,
authenticated or anonymous, rather than producing a NotFound response. -/
theorem c10_delete_record_faults_on_missing (record_id : Nat)
    (gUser : Option Users) (db : DB)
    (h : db.records.find? (fun r => r.id == record_id) = none) :
    delete_record record_id gUser db =
      Except.error "AttributeError: NoneType has no attribute mod_id" := by
  unfold delete_record
  rw [h]

/-- Witness for C10: deleting the nonexistent record 99 faults for an
anonymous caller and for authenticated alice alike. -/
theorem c10_delete_record_faults_on_missing_witness :
    exDB.records.find? (fun r => r.id == 99) = none ∧
    delete_record 99 none exDB =
      Except.error "AttributeError: NoneType has no attribute mod_id" ∧
    delete_record 99 (some alice) exDB =
      Except.error "AttributeError: NoneType has no attribute mod_id" := by
  have h : exDB.records.find? (fun r => r.id == 99) = none := by decide
  exact ⟨h, c10_delete_record_faults_on_missing 99 none exDB h,
    c10_delete_record_faults_on_missing 99 (some alice) exDB h⟩

/-- C3: for every authenticated import call whose payload carries a file
identifier already stored (exactly one Mod row has it), no new Mod row is
created, the store is unchanged (so exactly one row with that identifier
remains), and the response reports the existing Mod's id. -/
theorem c3_add_mod_already_pulled (gu : Users) (j : ModJson) (db : DB)
    (m : Mods) (h : db.mods.filter (fun x => x.file_id == j.id) = [m]) :
    add_mod (some gu) j db = (db, AddModResp.alreadyPulled m.id) ∧
    (add_mod (some gu) j db).1.mods.filter (fun x => x.file_id == j.id)
      = [m] := by
  have hf : db.mods.find? (fun x => x.file_id == j.id) = some m :=
    find_of_filter_singleton _ _ _ h
  have h1 : add_mod (some gu) j db = (db, AddModResp.alreadyPulled m.id) := by
    unfold add_mod
    rw [hf]
  exact ⟨h1, by rw [h1]; exact h⟩

/-- Witness for C3: importing a payload with file id 42 when mod 5 already
holds file id 42 leaves the store unchanged and reports mod 5's id. -/
theorem c3_add_mod_already_pulled_witness :
    exDB.mods.filter (fun x => x.file_id == jEx.id) = [mod5] ∧
    add_mod (some alice) jEx exDB = (exDB, AddModResp.alreadyPulled 5) := by
  have h : exDB.mods.filter (fun x => x.file_id == jEx.id) = [mod5] := by
    decide
  exact ⟨h, (c3_add_mod_already_pulled alice jEx exDB mod5 h).1⟩

/-- Counterexample for C2: with alice already tracking mod 5 through record
10, a second attach call returns status "Already exists." carrying
`record.id` of the rolled-back insert — Python `None` — and NOT the
identifier 10 of the already-existing Record, refuting the claim's
"the response surfaces the identifier of the already-existing Record". -/
theorem c2_add_record_id_not_surfaced :
    exDB.records.filter (fun r => r.user_id == alice.id && r.mod_id == 5)
      = [rec10] ∧
    rec10.id = 10 ∧
    add_record 5 (some alice) exDB = (exDB, AddRecordResp.alreadyExists none) ∧
    AddRecordResp.alreadyExists none
      ≠ AddRecordResp.alreadyExists (some 10) := by
  refine ⟨by decide, rfl, ?_, by decide⟩
  have : exDB.records.any
      (fun r => r.user_id == alice.id && r.mod_id == 5) = true := by decide
  simp [add_record, this]

/-- C2 as amended: a second attach call for an already-tracked (user, mod)
pair fails with the Conflict status, the store is unchanged (exactly one
Record for the pair remains, the failed insert rolled back with no side
effects), but the response's record identifier is null — the id of the
rolled-back pending row — not the existing Record's identifier. -/
theorem c2_add_record_conflict_rolls_back (u : Users) (mid : Nat) (db : DB)
    (r0 : Records)
    (h : db.records.filter (fun r => r.user_id == u.id && r.mod_id == mid)
      = [r0]) :
    add_record mid (some u) db = (db, AddRecordResp.alreadyExists none) ∧
    (add_record mid (some u) db).1.records.filter
      (fun r => r.user_id == u.id && r.mod_id == mid) = [r0] := by
  have ha : db.records.any
      (fun r => r.user_id == u.id && r.mod_id == mid) = true :=
    any_of_filter_singleton _ _ _ h
  have h1 : add_record mid (some u) db
      = (db, AddRecordResp.alreadyExists none) := by
    simp [add_record, ha]
  exact ⟨h1, by rw [h1]; exact h⟩

/-- Witness for the amended C2 at the concrete store: the duplicate attach
of (alice, mod 5) conflicts, rolls back, and surfaces a null record id. -/
theorem c2_add_record_conflict_rolls_back_witness :
    exDB.records.filter (fun r => r.user_id == alice.id && r.mod_id == 5)
      = [rec10] ∧
    add_record 5 (some alice) exDB
      = (exDB, AddRecordResp.alreadyExists none) := by
  have h : exDB.records.filter
      (fun r => r.user_id == alice.id && r.mod_id == 5) = [rec10] := by decide
  exact ⟨h, (c2_add_record_conflict_rolls_back alice 5 exDB rec10 h).1⟩

/-- C4: registering a username not yet stored succeeds (setting the cookies
from the new row) and leaves exactly one user row with that username; an
immediately following registration of the same username fails with the
Conflict branch ("Username already taken") and changes nothing, so exactly
one row for the username remains.  Both submissions are cookie-free valid
form posts. -/
theorem c4_register_twice (db : DB) (f1 f2 : RegistrationForm)
    (hname : f2.username = f1.username)
    (hv1 : f1.validates = true) (hv2 : f2.validates = true)
    (h0 : db.users.any (fun u => u.username == f1.username) = false) :
    (register none f1 db).2 =
      RegisterResp.registered f1.username (hashPassword f1.password) ∧
    ((register none f1 db).1.users.filter
        (fun u => u.username == f1.username)).length = 1 ∧
    register none f2 (register none f1 db).1 =
      ((register none f1 db).1, RegisterResp.usernameTaken) := by
  have hfil : db.users.filter (fun u => u.username == f1.username) = [] :=
    filter_eq_nil_of_any_eq_false _ _ h0
  refine ⟨?_, ?_, ?_⟩
  · simp [register, hv1, h0]
  · simp [register, hv1, h0, List.filter_append, hfil]
  · simp [register, hv1, hv2, h0, hname, List.any_append]

/-- Witness for C4: registering "carol" twice against the concrete store:
the first call succeeds with one stored row for "carol", the second hits
the Conflict branch and leaves the store as it was. -/
theorem c4_register_twice_witness :
    (register none
      { username := "carol", email := "c@x", password := "pw",
        image_url := "", validates := true } exDB).2 =
      RegisterResp.registered "carol" (hashPassword "pw") ∧
    ((register none
      { username := "carol", email := "c@x", password := "pw",
        image_url := "", validates := true } exDB).1.users.filter
        (fun u => u.username == "carol")).length = 1 ∧
    register none
      { username := "carol", email := "c2@x", password := "pw2",
        image_url := "", validates := true }
      (register none
        { username := "carol", email := "c@x", password := "pw",
          image_url := "", validates := true } exDB).1 =
      ((register none
        { username := "carol", email := "c@x", password := "pw",
          image_url := "", validates := true } exDB).1,
       RegisterResp.usernameTaken) :=
  c4_register_twice exDB
    { username := "carol", email := "c@x", password := "pw",
      image_url := "", validates := true }
    { username := "carol", email := "c2@x", password := "pw2",
      image_url := "", validates := true }
    rfl rfl rfl (by decide)

/-- Counterexample for C5: a request that is NOT the first one served by the
process, carrying no session binding but a `user` cookie naming the stored
user "alice", resolves to anonymous — the implicit cookie re-login does not
happen on each inbound request, only on the first. -/
theorem c5_cookie_login_not_every_request :
    exDB.users.find? (fun u => u.username == "alice") = some alice ∧
    process_request exDB false none (some "alice") = (none, none) := by
  exact ⟨by decide, rfl⟩

/-- C5 as amended: the cookie-based implicit re-login runs only on the first
request served by the process (`before_first_request`): on that first
request, a session-less request whose marker cookie names a stored user is
resolved to that user; on every later request without a session binding the
cookie is ignored and the request is anonymous. -/
theorem c5_cookie_login_first_request_only (db : DB) (uname : String)
    (user : Users)
    (h : db.users.find? (fun u => u.username == uname) = some user)
    (hid : db.users.find? (fun v => v.id == user.id) = some user) :
    process_request db true none (some uname) = (some user.id, some user) ∧
    ∀ c : Option String, process_request db false none c = (none, none) := by
  constructor
  · unfold process_request check_cookies global_user do_login
    simp only [if_pos]
    rw [h]
    simp [hid]
  · intro c
    rfl

/-- Witness for the amended C5: the process's first request with alice's
cookie resolves to alice; a later cookie-only request is anonymous. -/
theorem c5_cookie_login_first_request_only_witness :
    exDB.users.find? (fun u => u.username == "alice") = some alice ∧
    process_request exDB true none (some "alice")
      = (some alice.id, some alice) ∧
    process_request exDB false none (some "alice") = (none, none) := by
  have h : exDB.users.find? (fun u => u.username == "alice") = some alice :=
    by decide
  have hid : exDB.users.find? (fun v => v.id == alice.id) = some alice :=
    by decide
  obtain ⟨h1, h2⟩ := c5_cookie_login_first_request_only exDB "alice" alice h hid
  exact ⟨h, h1, h2 (some "alice")⟩

/-- Counterexample for C7: an anonymous delete-mod request on the stored
mod 5 removes nothing but responds with a bare redirect to `/mods` carrying
no flash messages at all — no Unauthorized result is reported to the
caller, refuting that part of the claim. -/
theorem c7_delete_mod_anonymous_silent :
    delete_mod 5 none exDB = (exDB, Response.redirect "/mods" []) ∧
    Response.redirect "/mods" ([] : List String)
      ≠ Response.redirect "/mods" ["Unauthorized access."] := by
  exact ⟨rfl, by decide⟩

/-- C7 as amended: an anonymous delete-mod request removes no Mod row and
redirects to the mod list silently, with no Unauthorized (or any other)
message reported; any authenticated identity removes the Mod row
unconditionally. -/
theorem c7_delete_mod_auth_gate (mod_id : Nat) (db : DB) (u : Users) :
    delete_mod mod_id none db = (db, Response.redirect "/mods" []) ∧
    delete_mod mod_id (some u) db =
      ({ db with mods := db.mods.filter (fun m => !(m.id == mod_id)) },
       Response.redirect "/mods" ["Mod successfully removed."]) :=
  ⟨rfl, rfl⟩

/-- C1 evaluated at a failing input: authenticated bob (id 2) submits a
valid edit form to alice's (id 1) profile.  The handler flashes
"Unauthorized access." but — the computed redirect being discarded — still
commits the edit and redirects as on success: alice's stored email is
mutated away from its prior value, against the claim that the operation
fails and leaves the target unchanged. -/
theorem c1_edit_user_nonowner_mutates :
    bob.id ≠ (1 : Nat) ∧
    alice.email = PyVal.str "a@x" ∧
    edit_user 1 (some bob)
      { email := "evil@x", image_url := "newpic", validates := true } exDB =
      Except.ok
        ({ exDB with users := [aliceEdited, bob] },
         Response.redirect "/users/1" ["Unauthorized access."]) ∧
    PyVal.tuple1 "evil@x" ≠ PyVal.str "a@x" := by
  refine ⟨by decide, rfl, ?_, by decide⟩
  rfl

/-- C6 evaluated at a failing input: alice edits her record 10 with notes
"n" and review "great".  The review, flag and status are stored as
submitted, but the trailing comma on the notes assignment stores the
1-tuple `("n",)` instead of the submitted string "n", against the claim
that every field is overwritten with exactly the submitted value. -/
theorem c6_edit_record_notes_tuple :
    edit_record 10 (some alice)
      { user_notes := "n", user_review := "great", now_playing := true,
        play_status := "done", validates := true } exDB =
      ({ exDB with records := [rec10Edited] },
       Response.redirect "/records/10" []) ∧
    PyVal.tuple1 "n" ≠ PyVal.str "n" := by
  exact ⟨rfl, by decide⟩
